import Mathlib

/-
Shallow embedding of the telemetry core of amdgpu_top:
  * crates/libamdgpu_top/src/stat/sensors.rs  (PowerCap, Sensors)
  * crates/amdgpu_top_gui/src/app.rs          (sort toggle, fdinfo cells, PCIe bw label)
Sysfs is modelled as a partial map from full path to file content; the device
handle as a per-tick oracle from sensor type to an optional raw value (the
result of `sensor_info(..).ok()`).  Machine integers (u32/u64) are modelled by
Nat; the only arithmetic the embedded code performs on them is division by a
positive constant and addition of percentages, where no overflow behaviour is
involved (saturating_div on unsigned types is plain truncating division).
-/

namespace AmdgpuTop

/-- Sysfs model: a filesystem mapping a full path to the content of the file,
or `none` when the file is absent or unreadable.  `std::fs::read_to_string(p).ok()`
is `fs p`. -/
abbrev FS := String → Option String

/-- Rust `std::fs::read_to_string(path).ok()` over the modelled filesystem. -/
def read_to_string (fs : FS) (p : String) : Option String := fs p

/-- Rust `PathBuf::join`: joins a directory and a file name with a separator. -/
def pathJoin (dir name : String) : String := dir ++ "/" ++ name

/-- Rust `str::trim_end`: removes trailing whitespace characters. -/
def trimEnd (s : String) : String :=
  ⟨(s.toList.reverse.dropWhile Char.isWhitespace).reverse⟩

/-- Rust `str::parse::<u32>().ok()`: an optional leading plus sign, then one or
more ASCII digits, and the value must fit in 32 bits; anything else is `none`. -/
def parseU32 (s : String) : Option Nat :=
  let cs := s.toList
  let ds := match cs with
    | '+' :: rest => rest
    | _ => cs
  if ds = [] then none
  else if ds.all Char.isDigit then
    let v := ds.foldl (fun a c => a * 10 + (c.toNat - 48)) 0
    if v < 4294967296 then some v else none
  else none

/-- sensors.rs `parse_hwmon`:
`std::fs::read_to_string(path).ok().and_then(|file| file.trim_end().parse::<u32>().ok())`. -/
def parse_hwmon (fs : FS) (p : String) : Option Nat :=
  (read_to_string fs p).bind (fun file => parseU32 (trimEnd file))

/-- sensors.rs `enum PowerCapType { PPT, FastPPT, SlowPPT }`. -/
inductive PowerCapType
| PPT
| FastPPT
| SlowPPT
deriving DecidableEq

/-- sensors.rs `struct PowerCap`; the four values are whole watts (u32). -/
structure PowerCap where
  type_ : PowerCapType
  current : Nat
  default : Nat
  min : Nat
  max : Nat
deriving DecidableEq

/-- The `match .. { "fastPPT" => FastPPT, "slowPPT" => SlowPPT, _ => PPT }` on the
raw content of `power1_label` in `PowerCap::from_hwmon_path` (no trimming is applied
to the label before the comparison). -/
def labelType (label : String) : PowerCapType :=
  if label = "fastPPT" then PowerCapType.FastPPT
  else if label = "slowPPT" then PowerCapType.SlowPPT
  else PowerCapType.PPT

/-- The `names` selection in `PowerCap::from_hwmon_path`: the `power2_*` file group
for FastPPT/SlowPPT (VanGogh APU), the `power1_*` group otherwise. -/
def selNames (t : PowerCapType) : String × String × String × String :=
  if t = PowerCapType.FastPPT ∨ t = PowerCapType.SlowPPT then
    ("power2_cap", "power2_cap_default", "power2_cap_min", "power2_cap_max")
  else
    ("power1_cap", "power1_cap_default", "power1_cap_min", "power1_cap_max")

/-- One element of `names.map(|name| parse_hwmon(path.join(name)).map(|v| v.saturating_div(1_000_000)))`:
the raw microwatt value converted to whole watts (on u32, `saturating_div` by a
positive constant is plain truncating division). -/
def capRead (fs : FS) (path name : String) : Option Nat :=
  (parse_hwmon fs (pathJoin path name)).map (fun v => v / 1000000)

/-- The tail of `PowerCap::from_hwmon_path`: reads the four selected cap files and
builds the record; the `current?`/`default?`/`min?`/`max?` early returns are the
`Option.bind`s, so the result is `none` unless all four reads succeed. -/
def capGroup (fs : FS) (path : String) (t : PowerCapType)
    (ns : String × String × String × String) : Option PowerCap :=
  (capRead fs path ns.1).bind (fun current =>
  (capRead fs path ns.2.1).bind (fun default =>
  (capRead fs path ns.2.2.1).bind (fun mn =>
  (capRead fs path ns.2.2.2).map (fun mx =>
    { type_ := t, current := current, default := default, min := mn, max := mx }))))

/-- sensors.rs `PowerCap::from_hwmon_path`: the `.ok()?` on reading `power1_label`
is the outer `Option.bind` (an absent label file makes the whole result `none`);
the label content then selects the cap type and the file group. -/
def PowerCap.from_hwmon_path (fs : FS) (path : String) : Option PowerCap :=
  (read_to_string fs (pathJoin path "power1_label")).bind (fun label =>
    capGroup fs path (labelType label) (selNames (labelType label)))

/-- PCI::LINK from libdrm_amdgpu_sys: a link generation and width. -/
structure LINK where
  gen : Nat
  width : Nat
deriving DecidableEq

/-- PCI::BUS_INFO from libdrm_amdgpu_sys: domain/bus/device/function. -/
structure BUS_INFO where
  domain : Nat
  bus : Nat
  dev : Nat
  func : Nat
deriving DecidableEq

/-- The sensor types `Sensors` queries through `DeviceHandle::sensor_info`. -/
inductive SENSOR_TYPE
| GFX_SCLK
| GFX_MCLK
| VDDNB
| VDDGFX
| GPU_TEMP
| GPU_AVG_POWER
deriving DecidableEq

/-- Device-handle model for one tick: for each sensor type, the result of
`amdgpu_dev.sensor_info(t).ok()` — `none` when the ioctl failed or the sensor
is unsupported. -/
abbrev DeviceHandle := SENSOR_TYPE → Option Nat

/-- `amdgpu_dev.sensor_info(t).ok()` over the modelled handle. -/
def sensor_info (dev : DeviceHandle) (t : SENSOR_TYPE) : Option Nat := dev t

/-- The PCI-bus side of the environment seen by `Sensors::new`:
`get_hwmon_path()` (which may fail) and `get_link_info(status)`. -/
structure PciBus where
  bus_info : BUS_INFO
  hwmon_path? : Option String
  link_current : LINK
  link_max : LINK

/-- `pci_bus.get_hwmon_path()`. -/
def PciBus.get_hwmon_path (p : PciBus) : Option String := p.hwmon_path?

/-- sensors.rs `struct Sensors`. -/
structure Sensors where
  hwmon_path : String
  cur : LINK
  max : LINK
  bus_info : BUS_INFO
  sclk : Option Nat
  mclk : Option Nat
  vddnb : Option Nat
  vddgfx : Option Nat
  temp : Option Nat
  critical_temp : Option Nat
  power : Option Nat
  power_cap : Option PowerCap
  fan_rpm : Option Nat
  fan_max_rpm : Option Nat
deriving DecidableEq

/-- sensors.rs `Sensors::new`.  The source runs
`pci_bus.get_hwmon_path().unwrap()`: the panic when the hwmon path cannot be
resolved is modelled by the `none` result; in the `some` case the construction
is total and every fallible read lands in an optional field. -/
def Sensors.new (pci : PciBus) (dev : DeviceHandle) (fs : FS) : Option Sensors :=
  match pci.get_hwmon_path with
  | none => none
  | some hwmon_path =>
    some {
      hwmon_path := hwmon_path
      cur := pci.link_current
      max := pci.link_max
      bus_info := pci.bus_info
      sclk := sensor_info dev SENSOR_TYPE.GFX_SCLK
      mclk := sensor_info dev SENSOR_TYPE.GFX_MCLK
      vddnb := sensor_info dev SENSOR_TYPE.VDDNB
      vddgfx := sensor_info dev SENSOR_TYPE.VDDGFX
      temp := (sensor_info dev SENSOR_TYPE.GPU_TEMP).map (fun v => v / 1000)
      critical_temp := (parse_hwmon fs (pathJoin hwmon_path "temp1_crit")).map (fun v => v / 1000)
      power := sensor_info dev SENSOR_TYPE.GPU_AVG_POWER
      power_cap := PowerCap.from_hwmon_path fs hwmon_path
      fan_rpm := parse_hwmon fs (pathJoin hwmon_path "fan1_input")
      fan_max_rpm := parse_hwmon fs (pathJoin hwmon_path "fan1_max") }

/-- sensors.rs `Sensors::update`.  `link_now` is the fresh result of
`self.bus_info.get_link_info(PCI::STATUS::Current)` for this tick and `fs` the
current sysfs state; every per-tick field is overwritten with the fresh read. -/
def Sensors.update (s : Sensors) (dev : DeviceHandle) (link_now : LINK) (fs : FS) : Sensors :=
  { s with
    cur := link_now
    sclk := sensor_info dev SENSOR_TYPE.GFX_SCLK
    mclk := sensor_info dev SENSOR_TYPE.GFX_MCLK
    vddnb := sensor_info dev SENSOR_TYPE.VDDNB
    vddgfx := sensor_info dev SENSOR_TYPE.VDDGFX
    temp := (sensor_info dev SENSOR_TYPE.GPU_TEMP).map (fun v => v / 1000)
    power := sensor_info dev SENSOR_TYPE.GPU_AVG_POWER
    fan_rpm := parse_hwmon fs (pathJoin s.hwmon_path "fan1_input") }

/-- The scalar sensor field of `Sensors` that is filled from a given sensor type. -/
def Sensors.fieldOf (s : Sensors) : SENSOR_TYPE → Option Nat
  | SENSOR_TYPE.GFX_SCLK => s.sclk
  | SENSOR_TYPE.GFX_MCLK => s.mclk
  | SENSOR_TYPE.VDDNB => s.vddnb
  | SENSOR_TYPE.VDDGFX => s.vddgfx
  | SENSOR_TYPE.GPU_TEMP => s.temp
  | SENSOR_TYPE.GPU_AVG_POWER => s.power

/-- libamdgpu_top stat `FdInfoSortType` (external to the provided files): the
variants are those used by app.rs plus the pid key of the spec; the structure
only needs decidable equality, which the source's derived PartialEq provides. -/
inductive FdInfoSortType
| PID
| VRAM
| GTT
| CPU
| GFX
| Compute
| DMA
| Decode
| Encode
deriving DecidableEq

/-- The sort-toggle state owned by app.rs `MyApp`: the active sort key
`fdinfo_sort` and the direction flag `reverse_sort`. -/
structure SortState where
  fdinfo_sort : FdInfoSortType
  reverse_sort : Bool
deriving DecidableEq

/-- app.rs `MyApp::set_fdinfo_sort_type`: same key flips `reverse_sort`
(`^= true`), a different key resets it to `false`; the requested key always
becomes the active one. -/
def set_fdinfo_sort_type (s : SortState) (sort_type : FdInfoSortType) : SortState :=
  let reverse_sort :=
    if sort_type = s.fdinfo_sort then Bool.xor s.reverse_sort true
    else false
  { fdinfo_sort := sort_type, reverse_sort := reverse_sort }

/-- The per-process engine-usage percentages consumed by app.rs
(fields of libamdgpu_top's FdInfoUsage that the GUI displays). -/
structure FdInfoUsage where
  gfx : Nat
  compute : Nat
  dma : Nat
  dec : Nat
  enc : Nat
  uvd_enc : Nat
  vcn_jpeg : Nat
  media : Nat
deriving DecidableEq

/-- The media cells of one row of app.rs `MyApp::egui_grid_fdinfo`: with
unified VCN a single media cell; otherwise the displayed decode cell is
`usage.dec + usage.vcn_jpeg` and the displayed encode cell is
`usage.enc + usage.uvd_enc` (plain sums, no clamping). -/
def egui_grid_fdinfo_media_cells (has_vcn_unified : Bool) (u : FdInfoUsage) : List Nat :=
  if has_vcn_unified then [u.media]
  else [u.dec + u.vcn_jpeg, u.enc + u.uvd_enc]

/-- The decode series built by app.rs `MyApp::egui_fdinfo_plot`:
`usage_dec = usage.dec + usage.vcn_jpeg` at each history point. -/
def egui_fdinfo_plot_dec_series (h : List (Nat × FdInfoUsage)) : List (Nat × Nat) :=
  h.map (fun p => (p.1, p.2.dec + p.2.vcn_jpeg))

/-- The encode series built by app.rs `MyApp::egui_fdinfo_plot`:
`usage_enc = usage.enc + usage.uvd_enc` at each history point. -/
def egui_fdinfo_plot_enc_series (h : List (Nat × FdInfoUsage)) : List (Nat × Nat) :=
  h.map (fun p => (p.1, p.2.enc + p.2.uvd_enc))

/-- Modelled from the spec: the bounded history buffer (spec 4.4) backing the
GUI's per-channel time series; its implementation is not among the provided
files.  Data is kept oldest first; push appends and evicts the oldest entries
once over capacity; latest returns the most recently pushed pair. -/
structure HistoryBuffer (α : Type) where
  capacity : Nat
  data : List (Nat × α)
deriving DecidableEq

/-- Modelled from the spec: HistoryBuffer push (append, FIFO eviction at capacity). -/
def HistoryBuffer.push {α : Type} (b : HistoryBuffer α) (t : Nat) (v : α) : HistoryBuffer α :=
  let d := b.data ++ [(t, v)]
  { b with data := if b.capacity < d.length then d.drop (d.length - b.capacity) else d }

/-- Modelled from the spec: HistoryBuffer latest — the most recently pushed
pair, or none when empty. -/
def HistoryBuffer.latest {α : Type} (b : HistoryBuffer α) : Option (Nat × α) :=
  b.data.getLast?

/-- Modelled from the spec: the PcieBandwidthTracker state (spec 4.5) — the
previous tick's cumulative (sent, received) byte counters, absent before the
first tick; its implementation is not among the provided files. -/
structure PcieBandwidthTracker where
  prev : Option (Nat × Nat)
deriving DecidableEq

/-- Modelled from the spec: one tick of the PcieBandwidthTracker.  With no
baseline (first tick) no rate is produced; otherwise the rate is the
saturating counter delta divided by the elapsed time (Nat subtraction is
saturating, so a wrapped counter yields delta 0). -/
def PcieBandwidthTracker.step (tr : PcieBandwidthTracker) (cur : Nat × Nat) (dt : Nat) :
    PcieBandwidthTracker × Option (Nat × Nat) :=
  match tr.prev with
  | none => ({ prev := some cur }, none)
  | some p => ({ prev := some cur }, some ((cur.1 - p.1) / dt, (cur.2 - p.2) / dt))

/-- Modelled from the spec: per tick the sampler appends a produced rate sample
to the bandwidth history; when no rate was produced nothing is appended. -/
def push_bw_sample (b : HistoryBuffer (Nat × Nat)) (t : Nat) :
    Option (Nat × Nat) → HistoryBuffer (Nat × Nat)
  | none => b
  | some v => b.push t v

/-- The final label of app.rs `MyApp::egui_pcie_bw` (text shortened, the
shape kept): `pcie_bw_history.latest()` present renders the two numbers,
otherwise an underscore placeholder is rendered for each. -/
def egui_pcie_bw_latest_label (latest : Option (Nat × Nat)) : String :=
  match latest with
  | some sr => "sent: " ++ toString sr.1 ++ " MiB/s, received: " ++ toString sr.2 ++ " MiB/s"
  | none => "sent: _ MiB/s, received: _ MiB/s"

/-- An all-absent filesystem: every read fails. -/
def fsNone : FS := fun _ => none

/-- A device handle whose every sensor read fails this tick. -/
def devNone : DeviceHandle := fun _ => none

/-- A concrete PCIe link state. -/
def link0 : LINK := { gen := 3, width := 16 }

/-- A concrete PCI bus identity. -/
def bus0 : BUS_INFO := { domain := 0, bus := 3, dev := 0, func := 0 }

/-- A concrete sensors state with every optional field populated, as after a
tick on which every read succeeded. -/
def s0 : Sensors :=
  { hwmon_path := "hw"
    cur := link0
    max := { gen := 4, width := 16 }
    bus_info := bus0
    sclk := some 500
    mclk := some 1000
    vddnb := some 900
    vddgfx := some 800
    temp := some 50
    critical_temp := some 100
    power := some 30
    power_cap := none
    fan_rpm := some 1200
    fan_max_rpm := some 3000 }

/-- A hwmon directory with no `power1_label` file but a complete, parseable
`power1_*` cap file group (raw microwatts, newline-terminated as in sysfs). -/
def fs2cex : FS := fun p =>
  if p = "hw/power1_cap" then some "240000000\n"
  else if p = "hw/power1_cap_default" then some "220000000\n"
  else if p = "hw/power1_cap_min" then some "0\n"
  else if p = "hw/power1_cap_max" then some "280000000\n"
  else none

/-- A hwmon directory whose `power1_label` holds exactly `fastPPT` (no
newline) and whose `power2_*` cap file group is complete. -/
def fs2w : FS := fun p =>
  if p = "hw/power1_label" then some "fastPPT"
  else if p = "hw/power2_cap" then some "15000000\n"
  else if p = "hw/power2_cap_default" then some "15000000\n"
  else if p = "hw/power2_cap_min" then some "0\n"
  else if p = "hw/power2_cap_max" then some "30000000\n"
  else none

/-- A hwmon directory whose `power1_label` holds exactly `slowPPT` and whose
`power2_*` cap file group is complete. -/
def fs4w : FS := fun p =>
  if p = "hw/power1_label" then some "slowPPT"
  else if p = "hw/power2_cap" then some "10000000\n"
  else if p = "hw/power2_cap_default" then some "12000000\n"
  else if p = "hw/power2_cap_min" then some "0\n"
  else if p = "hw/power2_cap_max" then some "25000000\n"
  else none

/-- A hwmon directory whose `power1_label` is newline-terminated
(`fastPPT` plus a trailing newline, as sysfs emits it) with both cap file
groups present. -/
def fs10w : FS := fun p =>
  if p = "hw/power1_label" then some "fastPPT\n"
  else if p = "hw/power1_cap" then some "240000000\n"
  else if p = "hw/power1_cap_default" then some "220000000\n"
  else if p = "hw/power1_cap_min" then some "0\n"
  else if p = "hw/power1_cap_max" then some "280000000\n"
  else if p = "hw/power2_cap" then some "15000000\n"
  else if p = "hw/power2_cap_default" then some "15000000\n"
  else if p = "hw/power2_cap_min" then some "0\n"
  else if p = "hw/power2_cap_max" then some "30000000\n"
  else none

/-- A PCI bus whose hwmon sysfs path cannot be resolved. -/
def pciNoHwmon : PciBus :=
  { bus_info := bus0, hwmon_path? := none, link_current := link0, link_max := link0 }

/-- A PCI bus whose hwmon sysfs path resolves to `hw`. -/
def pciW : PciBus :=
  { bus_info := bus0, hwmon_path? := some "hw", link_current := link0, link_max := link0 }

/-- A device handle whose GFX_SCLK read fails this tick while every other
sensor reads 7. -/
def dev1w : DeviceHandle := fun t =>
  if t = SENSOR_TYPE.GFX_SCLK then none else some 7

/-- A device handle agreeing with `dev1w` except on GFX_SCLK, which reads 5. -/
def dev2w : DeviceHandle := fun t =>
  if t = SENSOR_TYPE.GFX_SCLK then some 5 else some 7

/-- A usage row whose displayed decode sum (90 + 80) exceeds 100. -/
def u170 : FdInfoUsage :=
  { gfx := 0, compute := 0, dma := 0, dec := 90, enc := 60,
    uvd_enc := 70, vcn_jpeg := 80, media := 0 }

/-- A concrete sort state: VRAM active, ascending. -/
def st0 : SortState := { fdinfo_sort := FdInfoSortType.VRAM, reverse_sort := false }

/-- Helper for C4: `capGroup` yields a value exactly when all four of its cap
file reads succeed (the `?` early returns in `PowerCap::from_hwmon_path`). -/
theorem capGroup_isSome_iff (fs : FS) (path : String) (t : PowerCapType)
    (ns : String × String × String × String) :
    (capGroup fs path t ns).isSome = true ↔
      ((capRead fs path ns.1).isSome = true ∧ (capRead fs path ns.2.1).isSome = true ∧
       (capRead fs path ns.2.2.1).isSome = true ∧ (capRead fs path ns.2.2.2).isSome = true) := by
  cases h1 : capRead fs path ns.1 <;>
  cases h2 : capRead fs path ns.2.1 <;>
  cases h3 : capRead fs path ns.2.2.1 <;>
  cases h4 : capRead fs path ns.2.2.2 <;>
  simp [capGroup, h1, h2, h3, h4]

/-- C1 counterexample: with the previous tick holding `sclk = some 500`, a tick
on which every sensor read fails leaves `sclk = none` after `Sensors::update` —
the previous value is NOT retained, so after an update `none` can mean
"read failed this tick". -/
theorem claim_C1_counterexample :
    (Sensors.update s0 devNone link0 fsNone).sclk = none ∧ s0.sclk = some 500 :=
  ⟨rfl, rfl⟩

/-- C1 amended: `Sensors::update` overwrites every per-tick scalar field with
the fresh read result of this tick, independent of the previous value; a read
that fails this tick therefore leaves `none` in that field (so `none` after an
update means "unsupported or failed this tick", not a retained previous value). -/
theorem claim_C1_amended_update_overwrites (s : Sensors) (dev : DeviceHandle)
    (link_now : LINK) (fs : FS) :
    (Sensors.update s dev link_now fs).sclk = sensor_info dev SENSOR_TYPE.GFX_SCLK ∧
    (Sensors.update s dev link_now fs).mclk = sensor_info dev SENSOR_TYPE.GFX_MCLK ∧
    (Sensors.update s dev link_now fs).vddnb = sensor_info dev SENSOR_TYPE.VDDNB ∧
    (Sensors.update s dev link_now fs).vddgfx = sensor_info dev SENSOR_TYPE.VDDGFX ∧
    (Sensors.update s dev link_now fs).temp
      = (sensor_info dev SENSOR_TYPE.GPU_TEMP).map (fun v => v / 1000) ∧
    (Sensors.update s dev link_now fs).power = sensor_info dev SENSOR_TYPE.GPU_AVG_POWER ∧
    (Sensors.update s dev link_now fs).fan_rpm
      = parse_hwmon fs (pathJoin s.hwmon_path "fan1_input") :=
  ⟨rfl, rfl, rfl, rfl, rfl, rfl, rfl⟩

/-- C2 counterexample: a hwmon directory with no `power1_label` file but a
complete, parseable `power1_*` group yields no `PowerCap` at all, even though
the `power1_*` values were available — an absent label file does not fall back
to the `power1_*` group. -/
theorem claim_C2_counterexample :
    PowerCap.from_hwmon_path fs2cex "hw" = none ∧
    capGroup fs2cex "hw" PowerCapType.PPT
        ("power1_cap", "power1_cap_default", "power1_cap_min", "power1_cap_max") =
      some { type_ := PowerCapType.PPT, current := 240, default := 220, min := 0, max := 280 } := by
  constructor <;> rfl

/-- C2 amended: when the `power1_label` file is readable, content exactly
`fastPPT` selects the `power2_*` group with type FastPPT, content exactly
`slowPPT` selects the `power2_*` group with type SlowPPT, and any other content
selects the `power1_*` group with type PPT; when the `power1_label` file is
absent the whole `PowerCap` is `none` (no fallback to the `power1_*` group). -/
theorem claim_C2_amended_label_selection (fs : FS) (path : String) :
    (read_to_string fs (pathJoin path "power1_label") = none →
      PowerCap.from_hwmon_path fs path = none) ∧
    (∀ l, read_to_string fs (pathJoin path "power1_label") = some l →
      (l = "fastPPT" →
        PowerCap.from_hwmon_path fs path =
          capGroup fs path PowerCapType.FastPPT
            ("power2_cap", "power2_cap_default", "power2_cap_min", "power2_cap_max")) ∧
      (l = "slowPPT" →
        PowerCap.from_hwmon_path fs path =
          capGroup fs path PowerCapType.SlowPPT
            ("power2_cap", "power2_cap_default", "power2_cap_min", "power2_cap_max")) ∧
      (l ≠ "fastPPT" → l ≠ "slowPPT" →
        PowerCap.from_hwmon_path fs path =
          capGroup fs path PowerCapType.PPT
            ("power1_cap", "power1_cap_default", "power1_cap_min", "power1_cap_max"))) := by
  refine ⟨?_, ?_⟩
  · intro h
    unfold PowerCap.from_hwmon_path
    rw [h]
    rfl
  · intro l h
    refine ⟨?_, ?_, ?_⟩
    · intro hl
      subst hl
      unfold PowerCap.from_hwmon_path
      rw [h]
      rfl
    · intro hl
      subst hl
      unfold PowerCap.from_hwmon_path
      rw [h]
      rfl
    · intro h1 h2
      have hl : labelType l = PowerCapType.PPT := by
        unfold labelType
        rw [if_neg h1, if_neg h2]
      unfold PowerCap.from_hwmon_path
      rw [h]
      show capGroup fs path (labelType l) (selNames (labelType l)) = _
      rw [hl]
      rfl

/-- C2 witness: on a concrete hwmon directory whose label file holds exactly
`fastPPT`, the amended selection rule applies and gives the `power2_*` group. -/
theorem claim_C2_witness :
    PowerCap.from_hwmon_path fs2w "hw" =
      capGroup fs2w "hw" PowerCapType.FastPPT
        ("power2_cap", "power2_cap_default", "power2_cap_min", "power2_cap_max") :=
  ((claim_C2_amended_label_selection fs2w "hw").2 "fastPPT" rfl).1 rfl

/-- C3 counterexample: when `get_hwmon_path` cannot resolve a hwmon directory,
`Sensors::new` runs `.unwrap()` on `None` and panics (modelled by the `none`
result), rather than surfacing the absence as `None` fields. -/
theorem claim_C3_counterexample :
    Sensors.new pciNoHwmon devNone fsNone = none := rfl

/-- C3 amended: provided the hwmon sysfs path resolves, `Sensors::new` never
panics: construction succeeds for every device handle and filesystem, and when
every hwmon file is absent and every sensor read fails, each fallible field is
`None` rather than a panic or error. -/
theorem claim_C3_amended_no_panic (pci : PciBus) (p : String) (dev : DeviceHandle) (fs : FS)
    (h : pci.get_hwmon_path = some p) :
    (Sensors.new pci dev fs).isSome = true ∧
    (∀ s, Sensors.new pci devNone fsNone = some s →
      s.sclk = none ∧ s.mclk = none ∧ s.vddnb = none ∧ s.vddgfx = none ∧
      s.temp = none ∧ s.power = none ∧ s.critical_temp = none ∧
      s.power_cap = none ∧ s.fan_rpm = none ∧ s.fan_max_rpm = none) := by
  constructor
  · unfold Sensors.new
    rw [h]
    rfl
  · intro s hs
    unfold Sensors.new at hs
    rw [h] at hs
    injection hs with hs
    subst hs
    exact ⟨rfl, rfl, rfl, rfl, rfl, rfl, rfl, rfl, rfl, rfl⟩

/-- C3 witness: on a concrete bus whose hwmon path resolves, construction with
an all-absent filesystem and an all-failing device handle succeeds. -/
theorem claim_C3_witness :
    (Sensors.new pciW devNone fsNone).isSome = true :=
  (claim_C3_amended_no_panic pciW "hw" devNone fsNone rfl).1

/-- C4: once the label file is readable (so a file group is selected),
`PowerCap::from_hwmon_path` yields a `PowerCap` exactly when all four selected
cap files (cap, cap_default, cap_min, cap_max of the chosen group) are present
and parse; if any one is missing or unparsable the whole result is `none` —
no partial `PowerCap` is ever reported. -/
theorem claim_C4_all_four_or_none (fs : FS) (path l : String)
    (h : read_to_string fs (pathJoin path "power1_label") = some l) :
    (PowerCap.from_hwmon_path fs path).isSome = true ↔
      ((capRead fs path (selNames (labelType l)).1).isSome = true ∧
       (capRead fs path (selNames (labelType l)).2.1).isSome = true ∧
       (capRead fs path (selNames (labelType l)).2.2.1).isSome = true ∧
       (capRead fs path (selNames (labelType l)).2.2.2).isSome = true) := by
  have e : PowerCap.from_hwmon_path fs path
      = capGroup fs path (labelType l) (selNames (labelType l)) := by
    unfold PowerCap.from_hwmon_path
    rw [h]
    rfl
  rw [e]
  exact capGroup_isSome_iff fs path (labelType l) (selNames (labelType l))

/-- C4 witness: a concrete hwmon directory with label `slowPPT` and a complete
`power2_*` group reports a cap. -/
theorem claim_C4_witness :
    (PowerCap.from_hwmon_path fs4w "hw").isSome = true :=
  (claim_C4_all_four_or_none fs4w "hw" "slowPPT" rfl).mpr (by decide)

/-- C5: `set_fdinfo_sort_type` always makes the requested key the active one;
requesting the already-active key flips the reverse-sort flag, requesting a
different key resets it to false (ascending). -/
theorem claim_C5_sort_toggle (s : SortState) (t : FdInfoSortType) :
    (set_fdinfo_sort_type s t).fdinfo_sort = t ∧
    (t = s.fdinfo_sort → (set_fdinfo_sort_type s t).reverse_sort = !s.reverse_sort) ∧
    (t ≠ s.fdinfo_sort → (set_fdinfo_sort_type s t).reverse_sort = false) := by
  refine ⟨rfl, ?_, ?_⟩
  · intro ht
    simp [set_fdinfo_sort_type, ht]
  · intro ht
    simp [set_fdinfo_sort_type, ht]

/-- C5 witness: from (VRAM, ascending), sorting by VRAM again flips to
descending, while sorting by a different key (PID) resets to ascending. -/
theorem claim_C5_witness :
    (set_fdinfo_sort_type st0 FdInfoSortType.VRAM).reverse_sort = true ∧
    (set_fdinfo_sort_type st0 FdInfoSortType.PID).reverse_sort = false :=
  ⟨(claim_C5_sort_toggle st0 FdInfoSortType.VRAM).2.1 rfl,
   (claim_C5_sort_toggle st0 FdInfoSortType.PID).2.2 (by decide)⟩

/-- C6: on hardware without unified media engines, the displayed decode cell is
the sum of the primary decode and legacy JPEG percentages and the displayed
encode cell is the sum of the primary encode and legacy UVD-encode percentages,
in both the grid row and the plot series; the sums are not clamped to 100. -/
theorem claim_C6_media_sums (u : FdInfoUsage) (h : List (Nat × FdInfoUsage)) :
    egui_grid_fdinfo_media_cells false u = [u.dec + u.vcn_jpeg, u.enc + u.uvd_enc] ∧
    egui_fdinfo_plot_dec_series h = h.map (fun p => (p.1, p.2.dec + p.2.vcn_jpeg)) ∧
    egui_fdinfo_plot_enc_series h = h.map (fun p => (p.1, p.2.enc + p.2.uvd_enc)) ∧
    (100 < u.dec + u.vcn_jpeg →
      ∃ v, (egui_grid_fdinfo_media_cells false u).head? = some v ∧ 100 < v) := by
  refine ⟨rfl, rfl, rfl, ?_⟩
  intro hv
  exact ⟨u.dec + u.vcn_jpeg, rfl, hv⟩

/-- C6 witness: a row with decode 90 and JPEG 80 displays 170, above 100. -/
theorem claim_C6_witness :
    ∃ v, (egui_grid_fdinfo_media_cells false u170).head? = some v ∧ 100 < v :=
  (claim_C6_media_sums u170 []).2.2.2 (by decide)

/-- C7: `Sensors::update` changes only per-tick fields; the capability fields
discovered once at attach (hwmon_path, max link state, bus_info, critical_temp,
power_cap, fan_max_rpm) are unchanged by every update. -/
theorem claim_C7_capability_fields_stable (s : Sensors) (dev : DeviceHandle)
    (link_now : LINK) (fs : FS) :
    (Sensors.update s dev link_now fs).hwmon_path = s.hwmon_path ∧
    (Sensors.update s dev link_now fs).max = s.max ∧
    (Sensors.update s dev link_now fs).bus_info = s.bus_info ∧
    (Sensors.update s dev link_now fs).critical_temp = s.critical_temp ∧
    (Sensors.update s dev link_now fs).power_cap = s.power_cap ∧
    (Sensors.update s dev link_now fs).fan_max_rpm = s.fan_max_rpm :=
  ⟨rfl, rfl, rfl, rfl, rfl, rfl⟩

/-- C8: each scalar sensor is queried independently in `Sensors::update`: two
device handles that agree on every sensor but one produce updates agreeing on
every scalar field but the one fed by that sensor (and on fan_rpm and the link
state, which do not depend on the sensor ioctls at all), and a failing read
yields `none` for its own field only. -/
theorem claim_C8_independent_sensors (s : Sensors) (dev1 dev2 : DeviceHandle)
    (link_now : LINK) (fs : FS) (t0 : SENSOR_TYPE)
    (hagree : ∀ t, t ≠ t0 → dev1 t = dev2 t) :
    (∀ t, t ≠ t0 →
      (Sensors.update s dev1 link_now fs).fieldOf t
        = (Sensors.update s dev2 link_now fs).fieldOf t) ∧
    (Sensors.update s dev1 link_now fs).fan_rpm
      = (Sensors.update s dev2 link_now fs).fan_rpm ∧
    (Sensors.update s dev1 link_now fs).cur = (Sensors.update s dev2 link_now fs).cur ∧
    (dev1 t0 = none → (Sensors.update s dev1 link_now fs).fieldOf t0 = none) := by
  refine ⟨?_, rfl, rfl, ?_⟩
  · intro t ht
    have hd := hagree t ht
    cases t <;> simp [Sensors.update, Sensors.fieldOf, sensor_info, hd]
  · intro h0
    cases t0 <;> simp [Sensors.update, Sensors.fieldOf, sensor_info, h0]

/-- C8 witness: with a handle whose GFX_SCLK read fails but whose other reads
match a fully working handle, the update differs only in sclk, which is none. -/
theorem claim_C8_witness :
    (Sensors.update s0 dev1w link0 fsNone).fieldOf SENSOR_TYPE.GFX_MCLK
      = (Sensors.update s0 dev2w link0 fsNone).fieldOf SENSOR_TYPE.GFX_MCLK ∧
    (Sensors.update s0 dev1w link0 fsNone).fieldOf SENSOR_TYPE.GFX_SCLK = none := by
  have hagree : ∀ t, t ≠ SENSOR_TYPE.GFX_SCLK → dev1w t = dev2w t := by
    intro t ht
    cases t
    · exact absurd rfl ht
    all_goals rfl
  exact ⟨(claim_C8_independent_sensors s0 dev1w dev2w link0 fsNone
      SENSOR_TYPE.GFX_SCLK hagree).1 SENSOR_TYPE.GFX_MCLK (by decide),
    (claim_C8_independent_sensors s0 dev1w dev2w link0 fsNone
      SENSOR_TYPE.GFX_SCLK hagree).2.2.2 rfl⟩

/-- C9: the first tick after start produces no PCIe rate sample (no baseline),
so nothing is appended and `latest()` on the empty history yields nothing; the
front end renders an underscore placeholder for that state, distinct from the
rendering of a measured zero rate; and a rate (zero included) is only ever
produced when a previous-tick baseline exists. -/
theorem claim_C9_first_tick_no_rate (cap : Nat) (c : Nat × Nat) (dt : Nat) :
    (PcieBandwidthTracker.step { prev := none } c dt).2 = none ∧
    (push_bw_sample (HistoryBuffer.mk cap []) 0
        (PcieBandwidthTracker.step { prev := none } c dt).2).latest = none ∧
    egui_pcie_bw_latest_label none ≠ egui_pcie_bw_latest_label (some (0, 0)) ∧
    (∀ tr cur dt2 out, PcieBandwidthTracker.step tr cur dt2 = out →
      out.2 ≠ none → tr.prev ≠ none) := by
  refine ⟨rfl, rfl, by decide, ?_⟩
  intro tr cur dt2 out hstep hout
  cases htr : tr.prev with
  | none =>
    exfalso
    apply hout
    rw [← hstep]
    simp [PcieBandwidthTracker.step, htr]
  | some p =>
    simp [htr]

/-- C9 witness: a tick that produced the concrete rate sample (50, 0) from
counters 100 to 150 over one second indeed had a previous-tick baseline. -/
theorem claim_C9_witness :
    PcieBandwidthTracker.prev { prev := some (100, 0) } ≠ none :=
  (claim_C9_first_tick_no_rate 0 (0, 0) 1).2.2.2 { prev := some (100, 0) } (150, 0) 1
    (PcieBandwidthTracker.step { prev := some (100, 0) } (150, 0) 1) rfl (by decide)

/-- C10: the label comparison in `PowerCap::from_hwmon_path` applies no
trimming: a newline-terminated `fastPPT` or `slowPPT` label (as sysfs emits)
falls through to type PPT and the `power1_*` group; only the exact
unterminated strings select the `power2_*` group with the matching type. -/
theorem claim_C10_label_not_trimmed (fs : FS) (path l : String)
    (h : read_to_string fs (pathJoin path "power1_label") = some l) :
    (l = "fastPPT\n" ∨ l = "slowPPT\n" →
      PowerCap.from_hwmon_path fs path =
        capGroup fs path PowerCapType.PPT
          ("power1_cap", "power1_cap_default", "power1_cap_min", "power1_cap_max")) ∧
    (l = "fastPPT" →
      PowerCap.from_hwmon_path fs path =
        capGroup fs path PowerCapType.FastPPT
          ("power2_cap", "power2_cap_default", "power2_cap_min", "power2_cap_max")) ∧
    (l = "slowPPT" →
      PowerCap.from_hwmon_path fs path =
        capGroup fs path PowerCapType.SlowPPT
          ("power2_cap", "power2_cap_default", "power2_cap_min", "power2_cap_max")) := by
  have e : PowerCap.from_hwmon_path fs path
      = capGroup fs path (labelType l) (selNames (labelType l)) := by
    unfold PowerCap.from_hwmon_path
    rw [h]
    rfl
  refine ⟨?_, ?_, ?_⟩
  · intro hl
    cases hl with
    | inl hl =>
      subst hl
      rw [e]
      rfl
    | inr hl =>
      subst hl
      rw [e]
      rfl
  · intro hl
    subst hl
    rw [e]
    rfl
  · intro hl
    subst hl
    rw [e]
    rfl

/-- C10 witness: a concrete hwmon directory whose label file content is
newline-terminated `fastPPT` gets type PPT and the `power1_*` group. -/
theorem claim_C10_witness :
    PowerCap.from_hwmon_path fs10w "hw" =
      capGroup fs10w "hw" PowerCapType.PPT
        ("power1_cap", "power1_cap_default", "power1_cap_min", "power1_cap_max") :=
  (claim_C10_label_not_trimmed fs10w "hw" "fastPPT\n" rfl).1 (Or.inl rfl)

end AmdgpuTop
